import Mathlib

/-!
Shallow embedding of
`src/trace_processor/importers/proto/graphics_frame_event_parser.cc`
(PixelExperience/external_perfetto).

The parser consumes decoded `GraphicsFrameEvent.BufferEvent` records and
(1) emits one row per event into the graphics frame slice table
    (`CreateBufferEvent`), computing three derived latency fields on
    PresentFence rows, and
(2) advances a phase state machine (`CreatePhaseEvent`) that opens and
    closes App/GPU/SF/Display intervals via the slice tracker.

Modelling choices:
* `StringId` / interned strings are modelled as the strings themselves
  (interning is injective and stable within a session).
* `TrackId` is modelled as the track's name: tracks are deduplicated by
  (name, scope) and the scope is the fixed constant
  "graphics_frame_event" for every track created by this parser.
* The graphics frame slice table is a list of `SliceRow`; a slice id is
  the row's index in insertion order.
* Machine integers: timestamps are `int64` modelled as `Int`; buffer ids
  and frame numbers are `uint32` modelled as `Nat` (the code performs no
  arithmetic on them that could overflow).
* Proto decoder accessors return the field's default value when the
  field is absent (`0` for scalars, `""` for strings), while the
  `has_*()` guards are modelled by `Option`.
* The external slice tracker (`BeginFrameEvent` / `EndFrameEvent` /
  `ScopedFrameEvent`) is not part of this source unit.  Modelled from
  the spec: `begin(interval)` opens an interval on its track,
  `end(ts, trackId, optionalArgs)` closes the most recently opened
  still-open interval on that track and returns its id, or returns
  `none` when nothing is open on that track; `scoped` appends one
  completed row and returns its id.  Every call is additionally logged
  in a `calls` trace so that "no recorder call was made" is observable.
-/

namespace GraphicsFrame

/-! ## Event type ordinals (proto enum `GraphicsFrameEvent.BufferEventType`) -/

def UNSPECIFIED : Nat := 0
def DEQUEUE : Nat := 1
def QUEUE : Nat := 2
def POST : Nat := 3
def ACQUIRE_FENCE : Nat := 4
def LATCH : Nat := 5
def HWC_COMPOSITION_QUEUED : Nat := 6
def FALLBACK_COMPOSITION : Nat := 7
def PRESENT_FENCE : Nat := 8
def RELEASE_FENCE : Nat := 9
def MODIFY : Nat := 10
def DETACH : Nat := 11
def ATTACH : Nat := 12
def CANCEL : Nat := 13

/-- `event_type_name_ids_`: the canonical display names interned in the
parser's constructor, indexed by enum ordinal. -/
def eventTypeNames : List String :=
  ["unspecified_event", "Dequeue", "Queue", "Post", "AcquireFenceSignaled",
   "Latch", "HWCCompositionQueued", "FallbackComposition",
   "PresentFenceSignaled", "ReleaseFenceSignaled", "Modify", "Detach",
   "Attach", "Cancel"]

/-- `kQueueLostMessage` (diagnostic attached on the Latch recovery path). -/
def queueLostMessage : String :=
  "Missing queue event. The slice is now a bit extended than it might " ++
  "actually have been"

/-! ## Decoded event -/

/-- A decoded `GraphicsFrameEvent.BufferEvent`.  `none` models an absent
optional field (`has_*() == false`). -/
structure FrameEvent where
  bufferId : Option Nat
  type : Option Nat
  frameNumber : Option Nat
  layerName : Option String
  durationNs : Option Int
deriving DecidableEq, Repr

/-- Proto accessor `event.type()`: the field value, or the enum default 0
when absent. -/
def typeVal (e : FrameEvent) : Nat := e.type.getD 0

/-- Layer name as resolved for row/slice `layer_name` columns:
the interned layer name when present, else the `no_layer_name` sentinel. -/
def resolvedLayerName (e : FrameEvent) : String :=
  match e.layerName with
  | some ln => ln
  | none => "no_layer_name"

/-! ## Slice table rows and the (spec-modelled) slice tracker -/

/-- One row of the graphics frame slice table.  `dur = none` means the
slice is still open (begun, not yet ended); `ScopedFrameEvent` rows carry
their duration from the start.  The three `Option Int` latency columns
are `none` when the column was not populated. -/
structure SliceRow where
  ts : Int
  track : String
  name : String
  dur : Option Int
  frameNumber : Nat
  layerName : String
  args : List (String × String)
  queueToAcquire : Option Int
  acquireToLatch : Option Int
  latchToPresent : Option Int
deriving DecidableEq, Repr

/-- A logged call to the external slice tracker. -/
inductive RecCall where
  | scoped (row : SliceRow)
  | begin (row : SliceRow)
  | endCall (ts : Int) (track : String) (args : List (String × String))
      (result : Option Nat)
deriving DecidableEq, Repr

/-- Index of the most recently opened still-open slice on `track`,
if any. -/
def findLastOpen (track : String) : List SliceRow → Option Nat
  | [] => none
  | r :: rs =>
    match findLastOpen track rs with
    | some i => some (i + 1)
    | none => if r.track = track ∧ r.dur.isNone then some 0 else none

/-- Modelled from the spec: `TimelineRecorder.end(ts, trackId,
optionalArgs) -> optional intervalId` (the slice tracker's
`EndFrameEvent`, external to this source unit).  Closes the most
recently opened still-open slice on `track` at `ts` (setting its
duration and args) and returns its id; returns `none` when nothing is
open on that track. -/
def endFrameEvent (ts : Int) (track : String)
    (args : List (String × String)) (table : List SliceRow) :
    List SliceRow × Option Nat :=
  match findLastOpen track table with
  | none => (table, none)
  | some i =>
    match table.get? i with
    | none => (table, none)
    | some r =>
      (table.set i { r with dur := some (ts - r.ts), args := args }, some i)

/-- `graphics_frame_slice_table->mutable_frame_number()->Set(idx, fn)`:
patch only the frame number of row `i`. -/
def patchFrame (i : Nat) (fn : Nat) (table : List SliceRow) :
    List SliceRow :=
  match table.get? i with
  | none => table
  | some r => table.set i { r with frameNumber := fn }

/-- Patch both the name and the frame number of row `i` (done on the
slice closed at Queue/Latch, whose provisional name was the Dequeue
timestamp). -/
def patchNameFrame (i : Nat) (name : String) (fn : Nat)
    (table : List SliceRow) : List SliceRow :=
  match table.get? i with
  | none => table
  | some r => table.set i { r with name := name, frameNumber := fn }

/-! ## Association lists (`std::unordered_map` fields of the parser) -/

/-- Remove every binding of key `k` (`map.erase(it)`). -/
def aerase {κ ν : Type} [DecidableEq κ] (k : κ) (m : List (κ × ν)) :
    List (κ × ν) :=
  m.filter (fun p => decide (p.1 ≠ k))

/-- Insert-or-assign (`map[k] = v`). -/
def ainsert {κ ν : Type} [DecidableEq κ] (k : κ) (v : ν)
    (m : List (κ × ν)) : List (κ × ν) :=
  (k, v) :: aerase k m

/-- Lookup (`map.find(k)`). -/
def afind {κ ν : Type} [DecidableEq κ] (k : κ) (m : List (κ × ν)) :
    Option ν :=
  (m.find? (fun p => decide (p.1 = k))).map (fun p => p.2)

/-- Number of bindings of key `k` in the table. -/
def countKey {κ ν : Type} [DecidableEq κ] (k : κ) (m : List (κ × ν)) :
    Nat :=
  m.countP (fun p => decide (p.1 = k))

/-- Total map update for the default-0 `std::unordered_map` timestamp
tables (`operator[]` reads return 0 for a never-written key). -/
def fset (f : Nat → Int) (k : Nat) (v : Int) : Nat → Int :=
  fun k2 => if k2 = k then v else f k2

/-- `graphics_frame_stats_map_[buffer][type] = ts`. -/
def statsSet (f : Nat → Nat → Int) (b t : Nat) (v : Int) :
    Nat → Nat → Int :=
  fun b2 t2 => if b2 = b ∧ t2 = t then v else f b2 t2

/-! ## Parser state -/

/-- The mutable state of `GraphicsFrameEventParser` together with the
storage it writes through (`table` = graphics frame slice table,
`calls` = log of slice-tracker calls, `errors` =
`stats::graphics_frame_event_parser_errors`). -/
structure ParserState where
  table : List SliceRow
  calls : List RecCall
  errors : Nat
  stats : Nat → Nat → Int
  dequeueSliceIds : List (Nat × Nat)
  dequeueMap : List (Nat × String)
  queueMap : List (Nat × String)
  latchMap : List (Nat × String)
  displayMap : List (String × String)
  lastDequeued : Nat → Int
  lastAcquired : Nat → Int

def initState : ParserState where
  table := []
  calls := []
  errors := 0
  stats := fun _ _ => 0
  dequeueSliceIds := []
  dequeueMap := []
  queueMap := []
  latchMap := []
  displayMap := []
  lastDequeued := fun _ => 0
  lastAcquired := fun _ => 0

/-- `SliceTracker::BeginFrameEvent(slice)`: open a new slice. -/
def beginFrameEvent (row : SliceRow) (s : ParserState) : ParserState :=
  { s with table := s.table ++ [row],
           calls := s.calls ++ [RecCall.begin row] }

/-- Run `EndFrameEvent` against the state, logging the call. -/
def endOn (ts : Int) (track : String) (args : List (String × String))
    (s : ParserState) : ParserState × Option Nat :=
  let r := endFrameEvent ts track args s.table
  ({ s with table := r.1,
            calls := s.calls ++ [RecCall.endCall ts track args r.2] },
   r.2)

/-! ## `CreateBufferEvent` (lines 71-162) -/

/-- Lines 81-96: the row's display name (canonical event-type name for
a valid ordinal, else "unknown_event"). -/
def bufferEventName (e : FrameEvent) : String :=
  match e.type with
  | some t =>
    if t < eventTypeNames.length then eventTypeNames.getD t "unknown_event"
    else "unknown_event"
  | none => "unknown_event"

/-- Lines 81-96: error-counter increments from type validation (1 when
the type field is absent or its ordinal is out of range, else 0). -/
def typeErrors (e : FrameEvent) : Nat :=
  match e.type with
  | some t => if t < eventTypeNames.length then 0 else 1
  | none => 1

/-- Line 86: `graphics_frame_stats_map_[buffer_id][type] = timestamp`,
performed only for a present, in-range type ordinal. -/
def statsUpdate (timestamp : Int) (e : FrameEvent) (b : Nat)
    (st : Nat → Nat → Int) : Nat → Nat → Int :=
  match e.type with
  | some t =>
    if t < eventTypeNames.length then statsSet st b t timestamp else st
  | none => st

/-- Lines 123-144: the row handed to `ScopedFrameEvent`.  `st` is the
stats map after the line-86 update (which never touches the
AcquireFence/Queue/Latch keys on a PresentFence event). -/
def bufferRow (timestamp : Int) (e : FrameEvent) (b : Nat)
    (st : Nat → Nat → Int) : SliceRow :=
  let row0 : SliceRow :=
    { ts := timestamp, track := "Buffer: " ++ toString b,
      name := bufferEventName e, dur := some (e.durationNs.getD 0),
      frameNumber := e.frameNumber.getD 0,
      layerName := resolvedLayerName e, args := [],
      queueToAcquire := none, acquireToLatch := none,
      latchToPresent := none }
  if typeVal e = PRESENT_FENCE then
    { row0 with
        queueToAcquire :=
          some (max (st b ACQUIRE_FENCE - st b QUEUE) 0),
        acquireToLatch := some (st b LATCH - st b ACQUIRE_FENCE),
        latchToPresent := some (timestamp - st b LATCH) }
  else row0

/-- `GraphicsFrameEventParser::CreateBufferEvent`.  Returns the updated
state and the function's `bool` result.  The new row's slice id is its
index `s.table.length`; on Dequeue it is remembered in
`dequeue_slice_ids_`, and on Queue the remembered Dequeue row (if any)
gets its frame number patched (the Dequeue and Queue branches of lines
146-159 are mutually exclusive). -/
def createBufferEvent (timestamp : Int) (e : FrameEvent)
    (s : ParserState) : ParserState × Bool :=
  match e.bufferId with
  | none => ({ s with errors := s.errors + 1 }, false)
  | some bufferId =>
    let st := statsUpdate timestamp e bufferId s.stats
    let row := bufferRow timestamp e bufferId st
    let table1 := s.table ++ [row]
    ({ s with
        errors := s.errors + typeErrors e,
        stats := st,
        table :=
          if typeVal e = QUEUE then
            match afind bufferId s.dequeueSliceIds with
            | some i => patchFrame i (e.frameNumber.getD 0) table1
            | none => table1
          else table1,
        calls := s.calls ++ [RecCall.scoped row],
        dequeueSliceIds :=
          if typeVal e = DEQUEUE then
            ainsert bufferId s.table.length s.dequeueSliceIds
          else s.dequeueSliceIds },
     true)

/-! ## `CreatePhaseEvent` (lines 164-349) -/

/-- Lines 329-346: the slice opened for a new phase.  The display name
is the decimal frame number when it is known (non-zero), else the
literal decimal timestamp (a deliberate collision-avoidance choice, see
the source comment). -/
def phaseSlice (timestamp : Int) (track : String) (frameNumber : Nat)
    (layerNameId : String) : SliceRow :=
  { ts := timestamp, track := track,
    name :=
      if frameNumber ≠ 0 then toString frameNumber else toString timestamp,
    dur := none, frameNumber := frameNumber, layerName := layerNameId,
    args := [], queueToAcquire := none, acquireToLatch := none,
    latchToPresent := none }

/-- Lines 329-348: open the new phase slice. -/
def startSlice (timestamp : Int) (track : String) (frameNumber : Nat)
    (layerNameId : String) (s : ParserState) : ParserState :=
  beginFrameEvent (phaseSlice timestamp track frameNumber layerNameId) s

/-- `GraphicsFrameEventParser::CreatePhaseEvent`.  Called only after
`CreateBufferEvent` returned true, so `buffer_id` is present (the
accessor default 0 is kept for faithfulness). -/
def createPhaseEvent (timestamp : Int) (e : FrameEvent)
    (s : ParserState) : ParserState :=
  let bufferId := e.bufferId.getD 0
  let frameNumber := e.frameNumber.getD 0
  let layerNameId := resolvedLayerName e
  if typeVal e = DEQUEUE then
    let trackName := "APP_" ++ toString bufferId
    let s1 := { s with
      dequeueMap := ainsert bufferId trackName s.dequeueMap,
      lastDequeued := fset s.lastDequeued bufferId timestamp }
    startSlice timestamp trackName frameNumber layerNameId s1
  else if typeVal e = QUEUE then
    let s1 :=
      match afind bufferId s.dequeueMap with
      | some dtrack =>
        let r := endOn timestamp dtrack [] s
        match r.2 with
        | some sliceId =>
          { r.1 with
            table := patchNameFrame sliceId (toString frameNumber)
              frameNumber r.1.table,
            dequeueMap := aerase bufferId r.1.dequeueMap }
        | none => r.1
      | none => s
    if s1.lastAcquired bufferId > s1.lastDequeued bufferId ∧
        s1.lastAcquired bufferId < timestamp then
      s1
    else
      let trackName := "GPU_" ++ toString bufferId
      let s2 := { s1 with queueMap := ainsert bufferId trackName s1.queueMap }
      startSlice timestamp trackName frameNumber layerNameId s2
  else if typeVal e = ACQUIRE_FENCE then
    let s1 :=
      match afind bufferId s.queueMap with
      | some qtrack =>
        let r := endOn timestamp qtrack [] s
        { r.1 with queueMap := aerase bufferId r.1.queueMap }
      | none => s
    { s1 with lastAcquired := fset s1.lastAcquired bufferId timestamp }
  else if typeVal e = LATCH then
    let s1 :=
      match afind bufferId s.dequeueMap with
      | some dtrack =>
        let r := endOn timestamp dtrack
          [("Details", queueLostMessage)] s
        match r.2 with
        | some sliceId =>
          { r.1 with
            table := patchNameFrame sliceId (toString frameNumber)
              frameNumber r.1.table,
            dequeueMap := aerase bufferId r.1.dequeueMap }
        | none => r.1
      | none => s
    let trackName := "SF_" ++ toString bufferId
    let s2 := { s1 with latchMap := ainsert bufferId trackName s1.latchMap }
    startSlice timestamp trackName frameNumber layerNameId s2
  else if typeVal e = PRESENT_FENCE then
    let s1 :=
      match afind bufferId s.latchMap with
      | some ltrack =>
        let r := endOn timestamp ltrack [] s
        { r.1 with latchMap := aerase bufferId r.1.latchMap }
      | none => s
    let s2 :=
      match afind layerNameId s1.displayMap with
      | some dtrack =>
        let r := endOn timestamp dtrack [] s1
        { r.1 with displayMap := aerase layerNameId r.1.displayMap }
      | none => s1
    let rawLayer := e.layerName.getD ""
    let trackName := "Display_" ++ (rawLayer.take 10)
    let s3 := { s2 with
      displayMap := ainsert layerNameId trackName s2.displayMap }
    startSlice timestamp trackName frameNumber layerNameId s3
  else
    s

/-! ## `ParseGraphicsFrameEvent` (lines 351-365) -/

/-- `GraphicsFrameEventParser::ParseGraphicsFrameEvent`, given the
decoded buffer sub-event: the phase event is created only when the
buffer event succeeded. -/
def parseGraphicsFrameEvent (timestamp : Int) (e : FrameEvent)
    (s : ParserState) : ParserState :=
  let r := createBufferEvent timestamp e s
  if r.2 then createPhaseEvent timestamp e r.1 else r.1

/-- Feed a sequence of (timestamp, event) pairs, in order. -/
def runEvents (es : List (Int × FrameEvent)) (s : ParserState) :
    ParserState :=
  es.foldl (fun st p => parseGraphicsFrameEvent p.1 p.2 st) s

/-- Run a whole trace from the initial (fresh parser) state. -/
def runTrace (es : List (Int × FrameEvent)) : ParserState :=
  runEvents es initState

/-! ## Observations -/

/-- Number of open (begun, not yet ended) slices on a track. -/
def openOn (track : String) (table : List SliceRow) : Nat :=
  (table.filter (fun r => decide (r.track = track) && r.dur.isNone)).length

/-! ## Concrete events used by examples and counterexamples -/

def dequeueEv (b : Nat) : FrameEvent :=
  { bufferId := some b, type := some DEQUEUE, frameNumber := none,
    layerName := none, durationNs := none }

def queueEv (b : Nat) (fn : Option Nat) : FrameEvent :=
  { bufferId := some b, type := some QUEUE, frameNumber := fn,
    layerName := none, durationNs := none }

def acquireEv (b : Nat) : FrameEvent :=
  { bufferId := some b, type := some ACQUIRE_FENCE, frameNumber := none,
    layerName := none, durationNs := none }

def latchEv (b : Nat) : FrameEvent :=
  { bufferId := some b, type := some LATCH, frameNumber := none,
    layerName := none, durationNs := none }

def presentEv (b : Nat) : FrameEvent :=
  { bufferId := some b, type := some PRESENT_FENCE, frameNumber := none,
    layerName := none, durationNs := none }

/-! ## Association-list lemmas -/

theorem afind_aerase_self {κ ν : Type} [DecidableEq κ] (k : κ)
    (m : List (κ × ν)) : afind k (aerase k m) = none := by
  unfold afind aerase
  rw [Option.map_eq_none', List.find?_eq_none]
  intro p hp
  rw [List.mem_filter] at hp
  have h2 := hp.2
  simp only [decide_eq_true_eq] at h2 ⊢
  exact h2

theorem countKey_aerase_self {κ ν : Type} [DecidableEq κ] (k : κ)
    (m : List (κ × ν)) : countKey k (aerase k m) = 0 := by
  unfold countKey aerase
  rw [List.countP_eq_zero]
  intro p hp
  rw [List.mem_filter] at hp
  have h2 := hp.2
  simp only [decide_eq_true_eq] at h2 ⊢
  exact h2

theorem countKey_aerase_le {κ ν : Type} [DecidableEq κ] (k k2 : κ)
    (m : List (κ × ν)) : countKey k (aerase k2 m) ≤ countKey k m :=
  List.Sublist.countP_le _ (List.filter_sublist m)

theorem countKey_ainsert {κ ν : Type} [DecidableEq κ] (k k2 : κ) (v : ν)
    (m : List (κ × ν)) (h : countKey k m ≤ 1) :
    countKey k (ainsert k2 v m) ≤ 1 := by
  unfold ainsert
  by_cases hk : k2 = k
  · subst hk
    have h0 := countKey_aerase_self k2 m
    unfold countKey at h0 ⊢
    rw [List.countP_cons, h0]
    simp
  · have hle := countKey_aerase_le (ν := ν) k k2 m
    unfold countKey at hle h ⊢
    rw [List.countP_cons]
    simp only [decide_eq_true_eq]
    rw [if_neg hk]
    omega

/-! ## List index lemmas used by the general theorems -/

theorem get?_some_lt {α : Type} {l : List α} {i : Nat} {a : α}
    (h : l.get? i = some a) : i < l.length :=
  (List.get?_eq_some.mp h).1

theorem get?_set_self {α : Type} (l : List α) (i : Nat) (a : α)
    (h : i < l.length) : (l.set i a).get? i = some a :=
  List.get?_set_eq_of_lt a h

/-! ## Projection lemmas for `startSlice` -/

@[simp] theorem startSlice_table (ts : Int) (tr : String) (fn : Nat)
    (ln : String) (s : ParserState) :
    (startSlice ts tr fn ln s).table =
      s.table ++ [phaseSlice ts tr fn ln] := rfl

@[simp] theorem startSlice_calls (ts : Int) (tr : String) (fn : Nat)
    (ln : String) (s : ParserState) :
    (startSlice ts tr fn ln s).calls =
      s.calls ++ [RecCall.begin (phaseSlice ts tr fn ln)] := rfl

@[simp] theorem startSlice_errors (ts : Int) (tr : String) (fn : Nat)
    (ln : String) (s : ParserState) :
    (startSlice ts tr fn ln s).errors = s.errors := rfl

@[simp] theorem startSlice_stats (ts : Int) (tr : String) (fn : Nat)
    (ln : String) (s : ParserState) :
    (startSlice ts tr fn ln s).stats = s.stats := rfl

@[simp] theorem startSlice_dequeueSliceIds (ts : Int) (tr : String)
    (fn : Nat) (ln : String) (s : ParserState) :
    (startSlice ts tr fn ln s).dequeueSliceIds = s.dequeueSliceIds := rfl

@[simp] theorem startSlice_dequeueMap (ts : Int) (tr : String) (fn : Nat)
    (ln : String) (s : ParserState) :
    (startSlice ts tr fn ln s).dequeueMap = s.dequeueMap := rfl

@[simp] theorem startSlice_queueMap (ts : Int) (tr : String) (fn : Nat)
    (ln : String) (s : ParserState) :
    (startSlice ts tr fn ln s).queueMap = s.queueMap := rfl

@[simp] theorem startSlice_latchMap (ts : Int) (tr : String) (fn : Nat)
    (ln : String) (s : ParserState) :
    (startSlice ts tr fn ln s).latchMap = s.latchMap := rfl

@[simp] theorem startSlice_displayMap (ts : Int) (tr : String) (fn : Nat)
    (ln : String) (s : ParserState) :
    (startSlice ts tr fn ln s).displayMap = s.displayMap := rfl

@[simp] theorem startSlice_lastDequeued (ts : Int) (tr : String)
    (fn : Nat) (ln : String) (s : ParserState) :
    (startSlice ts tr fn ln s).lastDequeued = s.lastDequeued := rfl

@[simp] theorem startSlice_lastAcquired (ts : Int) (tr : String)
    (fn : Nat) (ln : String) (s : ParserState) :
    (startSlice ts tr fn ln s).lastAcquired = s.lastAcquired := rfl

/-! ## Branch reduction lemmas for `createPhaseEvent` -/

theorem phase_dequeue (ts : Int) (e : FrameEvent) (s : ParserState)
    (b : Nat) (hb : e.bufferId = some b) (ht : typeVal e = DEQUEUE) :
    createPhaseEvent ts e s =
      startSlice ts ("APP_" ++ toString b) (e.frameNumber.getD 0)
        (resolvedLayerName e)
        { s with
            dequeueMap := ainsert b ("APP_" ++ toString b) s.dequeueMap,
            lastDequeued := fset s.lastDequeued b ts } := by
  simp only [createPhaseEvent, hb, Option.getD_some, ht]
  norm_num [DEQUEUE]

theorem phase_queue_noApp (ts : Int) (e : FrameEvent) (s : ParserState)
    (b : Nat) (hb : e.bufferId = some b) (ht : typeVal e = QUEUE)
    (hf : afind b s.dequeueMap = none) :
    createPhaseEvent ts e s =
      if s.lastAcquired b > s.lastDequeued b ∧ s.lastAcquired b < ts then
        s
      else
        startSlice ts ("GPU_" ++ toString b) (e.frameNumber.getD 0)
          (resolvedLayerName e)
          { s with
              queueMap := ainsert b ("GPU_" ++ toString b) s.queueMap } := by
  simp only [createPhaseEvent, hb, Option.getD_some, ht, hf]
  norm_num [DEQUEUE, QUEUE]

theorem phase_queue_close (ts : Int) (e : FrameEvent) (s : ParserState)
    (b : Nat) (dtrack : String) (i : Nat) (hb : e.bufferId = some b)
    (ht : typeVal e = QUEUE) (hf : afind b s.dequeueMap = some dtrack)
    (hE : (endFrameEvent ts dtrack [] s.table).2 = some i) :
    createPhaseEvent ts e s =
      if s.lastAcquired b > s.lastDequeued b ∧ s.lastAcquired b < ts then
        { s with
            table := patchNameFrame i (toString (e.frameNumber.getD 0))
              (e.frameNumber.getD 0) (endFrameEvent ts dtrack [] s.table).1,
            calls := s.calls ++ [RecCall.endCall ts dtrack [] (some i)],
            dequeueMap := aerase b s.dequeueMap }
      else
        startSlice ts ("GPU_" ++ toString b) (e.frameNumber.getD 0)
          (resolvedLayerName e)
          { s with
              table := patchNameFrame i (toString (e.frameNumber.getD 0))
                (e.frameNumber.getD 0)
                (endFrameEvent ts dtrack [] s.table).1,
              calls := s.calls ++ [RecCall.endCall ts dtrack [] (some i)],
              dequeueMap := aerase b s.dequeueMap,
              queueMap := ainsert b ("GPU_" ++ toString b) s.queueMap } := by
  simp only [createPhaseEvent, endOn, hb, Option.getD_some, ht, hf, hE]
  norm_num [DEQUEUE, QUEUE]

theorem phase_queue_close_miss (ts : Int) (e : FrameEvent)
    (s : ParserState) (b : Nat) (dtrack : String)
    (hb : e.bufferId = some b) (ht : typeVal e = QUEUE)
    (hf : afind b s.dequeueMap = some dtrack)
    (hE : (endFrameEvent ts dtrack [] s.table).2 = none) :
    createPhaseEvent ts e s =
      if s.lastAcquired b > s.lastDequeued b ∧ s.lastAcquired b < ts then
        { s with
            table := (endFrameEvent ts dtrack [] s.table).1,
            calls := s.calls ++ [RecCall.endCall ts dtrack [] none] }
      else
        startSlice ts ("GPU_" ++ toString b) (e.frameNumber.getD 0)
          (resolvedLayerName e)
          { s with
              table := (endFrameEvent ts dtrack [] s.table).1,
              calls := s.calls ++ [RecCall.endCall ts dtrack [] none],
              queueMap := ainsert b ("GPU_" ++ toString b) s.queueMap } := by
  simp only [createPhaseEvent, endOn, hb, Option.getD_some, ht, hf, hE]
  norm_num [DEQUEUE, QUEUE]

theorem phase_acquire_close (ts : Int) (e : FrameEvent) (s : ParserState)
    (b : Nat) (qtrack : String) (hb : e.bufferId = some b)
    (ht : typeVal e = ACQUIRE_FENCE)
    (hf : afind b s.queueMap = some qtrack) :
    createPhaseEvent ts e s =
      { s with
          table := (endFrameEvent ts qtrack [] s.table).1,
          calls := s.calls ++ [RecCall.endCall ts qtrack []
            (endFrameEvent ts qtrack [] s.table).2],
          queueMap := aerase b s.queueMap,
          lastAcquired := fset s.lastAcquired b ts } := by
  simp only [createPhaseEvent, endOn, hb, Option.getD_some, ht, hf]
  norm_num [DEQUEUE, QUEUE, ACQUIRE_FENCE]

theorem phase_acquire_miss (ts : Int) (e : FrameEvent) (s : ParserState)
    (b : Nat) (hb : e.bufferId = some b)
    (ht : typeVal e = ACQUIRE_FENCE) (hf : afind b s.queueMap = none) :
    createPhaseEvent ts e s =
      { s with lastAcquired := fset s.lastAcquired b ts } := by
  simp only [createPhaseEvent, hb, Option.getD_some, ht, hf]
  norm_num [DEQUEUE, QUEUE, ACQUIRE_FENCE]

theorem phase_latch_noApp (ts : Int) (e : FrameEvent) (s : ParserState)
    (b : Nat) (hb : e.bufferId = some b) (ht : typeVal e = LATCH)
    (hf : afind b s.dequeueMap = none) :
    createPhaseEvent ts e s =
      startSlice ts ("SF_" ++ toString b) (e.frameNumber.getD 0)
        (resolvedLayerName e)
        { s with latchMap := ainsert b ("SF_" ++ toString b) s.latchMap } := by
  simp only [createPhaseEvent, hb, Option.getD_some, ht, hf]
  norm_num [DEQUEUE, QUEUE, ACQUIRE_FENCE, LATCH]

theorem phase_latch_close (ts : Int) (e : FrameEvent) (s : ParserState)
    (b : Nat) (dtrack : String) (i : Nat) (hb : e.bufferId = some b)
    (ht : typeVal e = LATCH) (hf : afind b s.dequeueMap = some dtrack)
    (hE : (endFrameEvent ts dtrack
      [("Details", queueLostMessage)] s.table).2 = some i) :
    createPhaseEvent ts e s =
      startSlice ts ("SF_" ++ toString b) (e.frameNumber.getD 0)
        (resolvedLayerName e)
        { s with
            table := patchNameFrame i (toString (e.frameNumber.getD 0))
              (e.frameNumber.getD 0)
              (endFrameEvent ts dtrack
                [("Details", queueLostMessage)] s.table).1,
            calls := s.calls ++ [RecCall.endCall ts dtrack
              [("Details", queueLostMessage)] (some i)],
            dequeueMap := aerase b s.dequeueMap,
            latchMap := ainsert b ("SF_" ++ toString b) s.latchMap } := by
  simp only [createPhaseEvent, endOn, hb, Option.getD_some, ht, hf, hE]
  norm_num [DEQUEUE, QUEUE, ACQUIRE_FENCE, LATCH]

theorem phase_latch_close_miss (ts : Int) (e : FrameEvent)
    (s : ParserState) (b : Nat) (dtrack : String)
    (hb : e.bufferId = some b) (ht : typeVal e = LATCH)
    (hf : afind b s.dequeueMap = some dtrack)
    (hE : (endFrameEvent ts dtrack
      [("Details", queueLostMessage)] s.table).2 = none) :
    createPhaseEvent ts e s =
      startSlice ts ("SF_" ++ toString b) (e.frameNumber.getD 0)
        (resolvedLayerName e)
        { s with
            table := (endFrameEvent ts dtrack
              [("Details", queueLostMessage)] s.table).1,
            calls := s.calls ++ [RecCall.endCall ts dtrack
              [("Details", queueLostMessage)] none],
            latchMap := ainsert b ("SF_" ++ toString b) s.latchMap } := by
  simp only [createPhaseEvent, endOn, hb, Option.getD_some, ht, hf, hE]
  norm_num [DEQUEUE, QUEUE, ACQUIRE_FENCE, LATCH]

theorem phase_present_miss_miss (ts : Int) (e : FrameEvent)
    (s : ParserState) (b : Nat) (hb : e.bufferId = some b)
    (ht : typeVal e = PRESENT_FENCE)
    (hl : afind b s.latchMap = none)
    (hd : afind (resolvedLayerName e) s.displayMap = none) :
    createPhaseEvent ts e s =
      startSlice ts ("Display_" ++ (e.layerName.getD "").take 10)
        (e.frameNumber.getD 0) (resolvedLayerName e)
        { s with
            displayMap := ainsert (resolvedLayerName e)
              ("Display_" ++ (e.layerName.getD "").take 10)
              s.displayMap } := by
  simp only [createPhaseEvent, hb, Option.getD_some, ht, hl, hd]
  norm_num [DEQUEUE, QUEUE, ACQUIRE_FENCE, LATCH, PRESENT_FENCE]

theorem phase_present_close_miss (ts : Int) (e : FrameEvent)
    (s : ParserState) (b : Nat) (ltrack : String)
    (hb : e.bufferId = some b) (ht : typeVal e = PRESENT_FENCE)
    (hl : afind b s.latchMap = some ltrack)
    (hd : afind (resolvedLayerName e) s.displayMap = none) :
    createPhaseEvent ts e s =
      startSlice ts ("Display_" ++ (e.layerName.getD "").take 10)
        (e.frameNumber.getD 0) (resolvedLayerName e)
        { s with
            table := (endFrameEvent ts ltrack [] s.table).1,
            calls := s.calls ++ [RecCall.endCall ts ltrack []
              (endFrameEvent ts ltrack [] s.table).2],
            latchMap := aerase b s.latchMap,
            displayMap := ainsert (resolvedLayerName e)
              ("Display_" ++ (e.layerName.getD "").take 10)
              s.displayMap } := by
  simp only [createPhaseEvent, endOn, hb, Option.getD_some, ht, hl, hd]
  norm_num [DEQUEUE, QUEUE, ACQUIRE_FENCE, LATCH, PRESENT_FENCE]

theorem phase_present_miss_close (ts : Int) (e : FrameEvent)
    (s : ParserState) (b : Nat) (dtrack : String)
    (hb : e.bufferId = some b) (ht : typeVal e = PRESENT_FENCE)
    (hl : afind b s.latchMap = none)
    (hd : afind (resolvedLayerName e) s.displayMap = some dtrack) :
    createPhaseEvent ts e s =
      startSlice ts ("Display_" ++ (e.layerName.getD "").take 10)
        (e.frameNumber.getD 0) (resolvedLayerName e)
        { s with
            table := (endFrameEvent ts dtrack [] s.table).1,
            calls := s.calls ++ [RecCall.endCall ts dtrack []
              (endFrameEvent ts dtrack [] s.table).2],
            displayMap := ainsert (resolvedLayerName e)
              ("Display_" ++ (e.layerName.getD "").take 10)
              (aerase (resolvedLayerName e) s.displayMap) } := by
  simp only [createPhaseEvent, endOn, hb, Option.getD_some, ht, hl, hd]
  norm_num [DEQUEUE, QUEUE, ACQUIRE_FENCE, LATCH, PRESENT_FENCE]

theorem phase_present_close_close (ts : Int) (e : FrameEvent)
    (s : ParserState) (b : Nat) (ltrack dtrack : String)
    (hb : e.bufferId = some b) (ht : typeVal e = PRESENT_FENCE)
    (hl : afind b s.latchMap = some ltrack)
    (hd : afind (resolvedLayerName e) s.displayMap = some dtrack) :
    createPhaseEvent ts e s =
      startSlice ts ("Display_" ++ (e.layerName.getD "").take 10)
        (e.frameNumber.getD 0) (resolvedLayerName e)
        { s with
            table := (endFrameEvent ts dtrack []
              (endFrameEvent ts ltrack [] s.table).1).1,
            calls := s.calls ++ [RecCall.endCall ts ltrack []
                (endFrameEvent ts ltrack [] s.table).2,
              RecCall.endCall ts dtrack []
                (endFrameEvent ts dtrack []
                  (endFrameEvent ts ltrack [] s.table).1).2],
            latchMap := aerase b s.latchMap,
            displayMap := ainsert (resolvedLayerName e)
              ("Display_" ++ (e.layerName.getD "").take 10)
              (aerase (resolvedLayerName e) s.displayMap) } := by
  simp only [createPhaseEvent, endOn, hb, Option.getD_some, ht, hl, hd,
    List.append_assoc, List.cons_append, List.nil_append]
  norm_num [DEQUEUE, QUEUE, ACQUIRE_FENCE, LATCH, PRESENT_FENCE]

theorem phase_other (ts : Int) (e : FrameEvent) (s : ParserState)
    (h1 : typeVal e ≠ DEQUEUE) (h2 : typeVal e ≠ QUEUE)
    (h4 : typeVal e ≠ ACQUIRE_FENCE) (h5 : typeVal e ≠ LATCH)
    (h8 : typeVal e ≠ PRESENT_FENCE) :
    createPhaseEvent ts e s = s := by
  simp only [createPhaseEvent, h1, h2, h4, h5, h8, if_false, ite_false]

/-! ## Handle-table invariant -/

/-- Every one of the four open-interval handle tables holds at most one
binding per key. -/
def mapsOk (s : ParserState) : Prop :=
  (∀ k : Nat, countKey k s.dequeueMap ≤ 1) ∧
  (∀ k : Nat, countKey k s.queueMap ≤ 1) ∧
  (∀ k : Nat, countKey k s.latchMap ≤ 1) ∧
  (∀ lk : String, countKey lk s.displayMap ≤ 1)

theorem countKey_aerase_le_one {κ ν : Type} [DecidableEq κ] (k k2 : κ)
    (m : List (κ × ν)) (h : countKey k m ≤ 1) :
    countKey k (aerase k2 m) ≤ 1 :=
  le_trans (countKey_aerase_le k k2 m) h

theorem bufferEvent_maps (ts : Int) (e : FrameEvent) (s : ParserState) :
    (createBufferEvent ts e s).1.dequeueMap = s.dequeueMap ∧
    (createBufferEvent ts e s).1.queueMap = s.queueMap ∧
    (createBufferEvent ts e s).1.latchMap = s.latchMap ∧
    (createBufferEvent ts e s).1.displayMap = s.displayMap := by
  rcases hb : e.bufferId with _ | b <;>
    simp [createBufferEvent, hb]

theorem mapsOk_bufferEvent (ts : Int) (e : FrameEvent) (s : ParserState)
    (h : mapsOk s) : mapsOk (createBufferEvent ts e s).1 := by
  obtain ⟨m1, m2, m3, m4⟩ := bufferEvent_maps ts e s
  obtain ⟨h1, h2, h3, h4⟩ := h
  exact ⟨fun k => m1 ▸ h1 k, fun k => m2 ▸ h2 k,
         fun k => m3 ▸ h3 k, fun lk => m4 ▸ h4 lk⟩

theorem mapsOk_phaseEvent (ts : Int) (e : FrameEvent) (s : ParserState)
    (b : Nat) (hb : e.bufferId = some b) (h : mapsOk s) :
    mapsOk (createPhaseEvent ts e s) := by
  obtain ⟨h1, h2, h3, h4⟩ := h
  by_cases t1 : typeVal e = DEQUEUE
  · rw [phase_dequeue ts e s b hb t1]
    exact ⟨fun k => by simp [mapsOk]; exact countKey_ainsert k b _ _ (h1 k),
           fun k => h2 k, fun k => h3 k, fun lk => h4 lk⟩
  by_cases t2 : typeVal e = QUEUE
  · rcases hf : afind b s.dequeueMap with _ | dtrack
    · rw [phase_queue_noApp ts e s b hb t2 hf]
      split
      · exact ⟨h1, h2, h3, h4⟩
      · exact ⟨fun k => h1 k,
               fun k => countKey_ainsert k b _ _ (h2 k),
               fun k => h3 k, fun lk => h4 lk⟩
    · rcases hE : (endFrameEvent ts dtrack [] s.table).2 with _ | i
      · rw [phase_queue_close_miss ts e s b dtrack hb t2 hf hE]
        split
        · exact ⟨h1, h2, h3, h4⟩
        · exact ⟨fun k => h1 k,
                 fun k => countKey_ainsert k b _ _ (h2 k),
                 fun k => h3 k, fun lk => h4 lk⟩
      · rw [phase_queue_close ts e s b dtrack i hb t2 hf hE]
        split
        · exact ⟨fun k => countKey_aerase_le_one k b _ (h1 k),
                 fun k => h2 k, fun k => h3 k, fun lk => h4 lk⟩
        · exact ⟨fun k => countKey_aerase_le_one k b _ (h1 k),
                 fun k => countKey_ainsert k b _ _ (h2 k),
                 fun k => h3 k, fun lk => h4 lk⟩
  by_cases t4 : typeVal e = ACQUIRE_FENCE
  · rcases hf : afind b s.queueMap with _ | qtrack
    · rw [phase_acquire_miss ts e s b hb t4 hf]
      exact ⟨h1, h2, h3, h4⟩
    · rw [phase_acquire_close ts e s b qtrack hb t4 hf]
      exact ⟨fun k => h1 k, fun k => countKey_aerase_le_one k b _ (h2 k),
             fun k => h3 k, fun lk => h4 lk⟩
  by_cases t5 : typeVal e = LATCH
  · rcases hf : afind b s.dequeueMap with _ | dtrack
    · rw [phase_latch_noApp ts e s b hb t5 hf]
      exact ⟨fun k => h1 k, fun k => h2 k,
             fun k => countKey_ainsert k b _ _ (h3 k), fun lk => h4 lk⟩
    · rcases hE : (endFrameEvent ts dtrack
        [("Details", queueLostMessage)] s.table).2 with _ | i
      · rw [phase_latch_close_miss ts e s b dtrack hb t5 hf hE]
        exact ⟨fun k => h1 k, fun k => h2 k,
               fun k => countKey_ainsert k b _ _ (h3 k), fun lk => h4 lk⟩
      · rw [phase_latch_close ts e s b dtrack i hb t5 hf hE]
        exact ⟨fun k => countKey_aerase_le_one k b _ (h1 k),
               fun k => h2 k,
               fun k => countKey_ainsert k b _ _ (h3 k), fun lk => h4 lk⟩
  by_cases t8 : typeVal e = PRESENT_FENCE
  · rcases hl : afind b s.latchMap with _ | ltrack <;>
      rcases hd : afind (resolvedLayerName e) s.displayMap with _ | dtrack
    · rw [phase_present_miss_miss ts e s b hb t8 hl hd]
      exact ⟨fun k => h1 k, fun k => h2 k, fun k => h3 k,
             fun lk => countKey_ainsert lk _ _ _ (h4 lk)⟩
    · rw [phase_present_miss_close ts e s b dtrack hb t8 hl hd]
      exact ⟨fun k => h1 k, fun k => h2 k, fun k => h3 k,
             fun lk => countKey_ainsert lk _ _ _
               (countKey_aerase_le_one lk _ _ (h4 lk))⟩
    · rw [phase_present_close_miss ts e s b ltrack hb t8 hl hd]
      exact ⟨fun k => h1 k, fun k => h2 k,
             fun k => countKey_aerase_le_one k b _ (h3 k),
             fun lk => countKey_ainsert lk _ _ _ (h4 lk)⟩
    · rw [phase_present_close_close ts e s b ltrack dtrack hb t8 hl hd]
      exact ⟨fun k => h1 k, fun k => h2 k,
             fun k => countKey_aerase_le_one k b _ (h3 k),
             fun lk => countKey_ainsert lk _ _ _
               (countKey_aerase_le_one lk _ _ (h4 lk))⟩
  · rw [phase_other ts e s t1 t2 t4 t5 t8]
    exact ⟨h1, h2, h3, h4⟩

theorem mapsOk_parse (ts : Int) (e : FrameEvent) (s : ParserState)
    (h : mapsOk s) : mapsOk (parseGraphicsFrameEvent ts e s) := by
  rcases hb : e.bufferId with _ | b
  · have hr : parseGraphicsFrameEvent ts e s = (createBufferEvent ts e s).1 := by
      simp [parseGraphicsFrameEvent, createBufferEvent, hb]
    rw [hr]
    exact mapsOk_bufferEvent ts e s h
  · have hok : (createBufferEvent ts e s).2 = true := by
      simp [createBufferEvent, hb]
    have hr : parseGraphicsFrameEvent ts e s =
        createPhaseEvent ts e (createBufferEvent ts e s).1 := by
      simp [parseGraphicsFrameEvent, hok]
    rw [hr]
    exact mapsOk_phaseEvent ts e _ b hb (mapsOk_bufferEvent ts e s h)

theorem mapsOk_runEvents (es : List (Int × FrameEvent)) (s : ParserState)
    (h : mapsOk s) : mapsOk (runEvents es s) := by
  induction es generalizing s with
  | nil => exact h
  | cons p es ih => exact ih _ (mapsOk_parse p.1 p.2 s h)

theorem mapsOk_runTrace (es : List (Int × FrameEvent)) :
    mapsOk (runTrace es) := by
  refine mapsOk_runEvents es initState ?_
  refine ⟨?_, ?_, ?_, ?_⟩ <;> intro k <;> simp [initState, countKey]

/-! ## Claim C1 -/

/-- C1 counterexample: the claim says processing an AcquireFence event
neither opens nor closes any interval.  In the code the `ACQUIRE_FENCE`
case of `CreatePhaseEvent` ends the open GPU interval (lines 249-258).
Concretely: after Queue(buffer=1, ts=10) one GPU interval is open on
track "GPU_1"; processing AcquireFence(buffer=1, ts=20) closes it (and
no Latch was ever processed). -/
theorem C1_counterexample :
    openOn "GPU_1" (runTrace [(10, queueEv 1 none)]).table = 1 ∧
    openOn "GPU_1"
      (runTrace [(10, queueEv 1 none), (20, acquireEv 1)]).table = 0 := by
  exact ⟨by decide, by decide⟩

/-- C1 (amended): the GPU interval opened for a bufferId at Queue is
closed by the AcquireFence event for that bufferId, which records
lastAcquiredTs and never opens an interval: processing an AcquireFence
event sets `lastAcquired bufferId := ts`, drops the GPU handle, issues
exactly one end-interval call (on the open GPU track, when one is open)
and no begin call, and when no GPU handle is open it changes nothing but
`lastAcquired`. -/
theorem C1_amended (ts : Int) (e : FrameEvent) (s : ParserState) (b : Nat)
    (hb : e.bufferId = some b) (ht : typeVal e = ACQUIRE_FENCE) :
    (createPhaseEvent ts e s).lastAcquired b = ts ∧
    afind b (createPhaseEvent ts e s).queueMap = none ∧
    (∀ tr, afind b s.queueMap = some tr →
      (createPhaseEvent ts e s).calls =
        s.calls ++ [RecCall.endCall ts tr []
          (endFrameEvent ts tr [] s.table).2]) ∧
    (afind b s.queueMap = none →
      createPhaseEvent ts e s =
        { s with lastAcquired := fset s.lastAcquired b ts }) := by
  rcases hq : afind b s.queueMap with _ | tr
  · have hs : createPhaseEvent ts e s =
        { s with lastAcquired := fset s.lastAcquired b ts } := by
      simp only [createPhaseEvent, hb, ht, Option.getD_some, hq]
      norm_num [DEQUEUE, QUEUE, ACQUIRE_FENCE]
    refine ⟨by simp [hs, fset], by simp [hs]; exact hq, ?_, fun _ => hs⟩
    intro tr htr
    exact absurd htr (by simp)
  · have hs : createPhaseEvent ts e s =
        { s with
            table := (endFrameEvent ts tr [] s.table).1,
            calls := s.calls ++ [RecCall.endCall ts tr []
              (endFrameEvent ts tr [] s.table).2],
            queueMap := aerase b s.queueMap,
            lastAcquired := fset s.lastAcquired b ts } := by
      simp only [createPhaseEvent, endOn, hb, ht, Option.getD_some, hq]
      norm_num [DEQUEUE, QUEUE, ACQUIRE_FENCE]
    refine ⟨by simp [hs, fset], ?_, ?_, ?_⟩
    · rw [hs]
      exact afind_aerase_self b _
    · intro tr2 htr2
      have h : tr = tr2 := Option.some_inj.mp htr2
      subst h
      rw [hs]
    · intro hnone
      exact absurd hnone (by simp)

/-- C1 amended witness: after Queue(buffer=1, ts=10), processing
AcquireFence(buffer=1, ts=20) records lastAcquired and issues exactly
the one end-interval call on track "GPU_1". -/
theorem C1_amended_witness :
    (createPhaseEvent 20 (acquireEv 1)
        (runTrace [(10, queueEv 1 none)])).lastAcquired 1 = 20 ∧
    afind 1 (createPhaseEvent 20 (acquireEv 1)
        (runTrace [(10, queueEv 1 none)])).queueMap = none ∧
    (createPhaseEvent 20 (acquireEv 1)
        (runTrace [(10, queueEv 1 none)])).calls =
      (runTrace [(10, queueEv 1 none)]).calls ++
        [RecCall.endCall 20 "GPU_1" []
          (endFrameEvent 20 "GPU_1" []
            (runTrace [(10, queueEv 1 none)]).table).2] :=
  ⟨(C1_amended 20 (acquireEv 1) (runTrace [(10, queueEv 1 none)]) 1
      rfl rfl).1,
   (C1_amended 20 (acquireEv 1) (runTrace [(10, queueEv 1 none)]) 1
      rfl rfl).2.1,
   (C1_amended 20 (acquireEv 1) (runTrace [(10, queueEv 1 none)]) 1
      rfl rfl).2.2.1 "GPU_1" (by decide)⟩

/-! ## Claim C2 -/

/-- The three-event trace of claim C2: Queue(buffer=2, ts=10),
AcquireFence(buffer=2, ts=50), PresentFence(buffer=2, ts=200), no Latch
ever. -/
def c2Trace : List (Int × FrameEvent) :=
  [(10, queueEv 2 none), (50, acquireEv 2), (200, presentEv 2)]

/-- C2 counterexample: the claim says the PresentFence row of the trace
has acquireToLatch = 150.  The code computes
acquireToLatch = latch − acquire with latch defaulting to 0 (Latch never
seen), giving 0 − 50 = −50, not 150.  Row index 3 is the PresentFence
row emitted by `CreateBufferEvent`. -/
theorem C2_counterexample :
    ((runTrace c2Trace).table.get? 3).map
        (fun r => r.acquireToLatch) = some (some (-50)) ∧
    ((runTrace c2Trace).table.get? 3).map
        (fun r => r.acquireToLatch) ≠ some (some (150 : Int)) := by
  exact ⟨by decide, by decide⟩

/-- C2 (amended): for the event sequence Queue(buffer=2, ts=10), then
AcquireFence(buffer=2, ts=50), then PresentFence(buffer=2, ts=200),
with no Latch event ever observed for buffer 2, the FrameEventRow
emitted for the PresentFence event has queueToAcquire = 40,
acquireToLatch = −50, and latchToPresent = 200 (latch defaults to 0, so
acquireToLatch = 0 − 50 and latchToPresent = 200 − 0). -/
theorem C2_amended :
    ((runTrace c2Trace).table.get? 3).map
        (fun r => (r.queueToAcquire, r.acquireToLatch, r.latchToPresent))
      = some (some 40, some (-50), some 200) := by
  decide

/-! ## Claim C3 -/

/-- C3 counterexample: the claim says at most one App interval per
bufferId is open after each event.  Two Dequeue events for buffer 1 with
no closing event between them issue two begin-interval calls on track
"APP_1" and no end call, leaving two open App intervals for buffer 1. -/
theorem C3_counterexample :
    openOn "APP_1"
      (runTrace [(5, dequeueEv 1), (6, dequeueEv 1)]).table = 2 ∧
    ¬ (openOn "APP_1"
        (runTrace [(5, dequeueEv 1), (6, dequeueEv 1)]).table ≤ 1) := by
  exact ⟨by decide, by decide⟩

/-- C3 (amended): for every event sequence, after processing each event
the state machine tracks at most one open-interval handle per key: each
of the App/GPU/SF handle tables (`dequeue_map_`, `queue_map_`,
`latch_map_`) holds at most one binding per bufferId, and the Display
table (`display_map_`) at most one binding per layerName.  The recorder
itself, however, can be left holding more than one open interval on a
track when an opening event repeats with no closing event in between
(see the counterexample), so "at most one open interval" does not hold
for the recorder's intervals. -/
theorem C3_amended (es : List (Int × FrameEvent)) (k : Nat) (lk : String) :
    countKey k (runTrace es).dequeueMap ≤ 1 ∧
    countKey k (runTrace es).queueMap ≤ 1 ∧
    countKey k (runTrace es).latchMap ≤ 1 ∧
    countKey lk (runTrace es).displayMap ≤ 1 :=
  ⟨(mapsOk_runTrace es).1 k, (mapsOk_runTrace es).2.1 k,
   (mapsOk_runTrace es).2.2.1 k, (mapsOk_runTrace es).2.2.2 lk⟩

/-! ## Claim C4 -/

/-- C4: for every PresentFence event with a bufferId, the emitted row's
derived fields equal queueToAcquire = max(acquire−queue, 0),
acquireToLatch = latch−acquire, latchToPresent = ts−latch, where
acquire, queue, latch are the last-seen AcquireFence, Queue, Latch
timestamps for that bufferId (0 if never seen, the map's default);
queueToAcquire is therefore always ≥ 0 while the other two may be
negative, and the three fields are populated only on PresentFence rows
(every non-PresentFence row is emitted with all three unset). -/
theorem C4 :
    (∀ (ts : Int) (e : FrameEvent) (s : ParserState) (b : Nat),
      e.bufferId = some b → e.type = some PRESENT_FENCE →
      (createBufferEvent ts e s).1.calls =
        s.calls ++ [RecCall.scoped
          (bufferRow ts e b (statsUpdate ts e b s.stats))] ∧
      (bufferRow ts e b (statsUpdate ts e b s.stats)).queueToAcquire =
        some (max (s.stats b ACQUIRE_FENCE - s.stats b QUEUE) 0) ∧
      (bufferRow ts e b (statsUpdate ts e b s.stats)).acquireToLatch =
        some (s.stats b LATCH - s.stats b ACQUIRE_FENCE) ∧
      (bufferRow ts e b (statsUpdate ts e b s.stats)).latchToPresent =
        some (ts - s.stats b LATCH) ∧
      (0 : Int) ≤ max (s.stats b ACQUIRE_FENCE - s.stats b QUEUE) 0) ∧
    (∀ (ts : Int) (e : FrameEvent) (s : ParserState) (b : Nat),
      e.bufferId = some b → typeVal e ≠ PRESENT_FENCE →
      (createBufferEvent ts e s).1.calls =
        s.calls ++ [RecCall.scoped
          (bufferRow ts e b (statsUpdate ts e b s.stats))] ∧
      (bufferRow ts e b (statsUpdate ts e b s.stats)).queueToAcquire =
        none ∧
      (bufferRow ts e b (statsUpdate ts e b s.stats)).acquireToLatch =
        none ∧
      (bufferRow ts e b (statsUpdate ts e b s.stats)).latchToPresent =
        none) := by
  constructor
  · intro ts e s b hb ht
    have htv : typeVal e = PRESENT_FENCE := by simp [typeVal, ht]
    refine ⟨by simp [createBufferEvent, hb], ?_, ?_, ?_, le_max_right _ _⟩
      <;> simp [bufferRow, htv, statsUpdate, ht, statsSet,
        eventTypeNames, ACQUIRE_FENCE, QUEUE, LATCH, PRESENT_FENCE]
  · intro ts e s b hb ht
    refine ⟨by simp [createBufferEvent, hb], ?_, ?_, ?_⟩
      <;> simp [bufferRow, ht]

/-- C4 witness: a PresentFence event for buffer 9 against the fresh
state (all last-seen timestamps 0) emits the row with
queueToAcquire = max(0−0,0) = 0, acquireToLatch = 0−0 = 0,
latchToPresent = 200−0 = 200. -/
theorem C4_witness :
    (createBufferEvent 200 (presentEv 9) initState).1.calls =
      initState.calls ++ [RecCall.scoped (bufferRow 200 (presentEv 9) 9
        (statsUpdate 200 (presentEv 9) 9 initState.stats))] ∧
    (bufferRow 200 (presentEv 9) 9
        (statsUpdate 200 (presentEv 9) 9 initState.stats)).queueToAcquire =
      some (max (initState.stats 9 ACQUIRE_FENCE -
        initState.stats 9 QUEUE) 0) ∧
    (bufferRow 200 (presentEv 9) 9
        (statsUpdate 200 (presentEv 9) 9 initState.stats)).acquireToLatch =
      some (initState.stats 9 LATCH - initState.stats 9 ACQUIRE_FENCE) ∧
    (bufferRow 200 (presentEv 9) 9
        (statsUpdate 200 (presentEv 9) 9 initState.stats)).latchToPresent =
      some (200 - initState.stats 9 LATCH) ∧
    (0 : Int) ≤ max (initState.stats 9 ACQUIRE_FENCE -
      initState.stats 9 QUEUE) 0 :=
  C4.1 200 (presentEv 9) initState 9 rfl rfl

/-! ## Claim C5 -/

/-- An event whose bufferId field is absent. -/
def noBufferEv : FrameEvent :=
  { bufferId := none, type := some DEQUEUE, frameNumber := none,
    layerName := none, durationNs := none }

/-- C5: for every event whose bufferId field is absent,
`CreateBufferEvent` returns false and the whole parse step leaves the
state unchanged except for exactly one error-counter increment: no row
is emitted, no slice-tracker call is made, and no per-buffer state
(stats, handle tables, dequeue slice ids, guard timestamps) is
modified. -/
theorem C5 (ts : Int) (e : FrameEvent) (s : ParserState)
    (hb : e.bufferId = none) :
    parseGraphicsFrameEvent ts e s = { s with errors := s.errors + 1 } ∧
    (createBufferEvent ts e s).2 = false := by
  constructor
  · simp [parseGraphicsFrameEvent, createBufferEvent, hb]
  · simp [createBufferEvent, hb]

/-- C5 witness: the concrete bufferId-less event against the fresh
state. -/
theorem C5_witness :
    parseGraphicsFrameEvent 5 noBufferEv initState =
      { initState with errors := initState.errors + 1 } ∧
    (createBufferEvent 5 noBufferEv initState).2 = false :=
  C5 5 noBufferEv initState rfl

/-! ## Claim C6 -/

/-- An event with a bufferId whose type ordinal 99 is outside the known
enumeration range. -/
def badTypeEv (b : Nat) : FrameEvent :=
  { bufferId := some b, type := some 99, frameNumber := none,
    layerName := none, durationNs := none }

/-- C6: for every event with a bufferId whose eventType is absent or
out of the known ordinal range, `CreateBufferEvent` increments the
error counter but still returns true; the whole parse step emits
exactly one row, named "unknown_event", via one `ScopedFrameEvent`
call, does not update the per-(bufferId, EventType) last-seen table,
and the subsequent phase step opens and closes no intervals (no begin
or end call, and no other state change at all). -/
theorem C6 (ts : Int) (e : FrameEvent) (s : ParserState) (b : Nat)
    (hb : e.bufferId = some b)
    (ht : e.type = none ∨
      ∃ t, e.type = some t ∧ eventTypeNames.length ≤ t) :
    (createBufferEvent ts e s).2 = true ∧
    parseGraphicsFrameEvent ts e s =
      { s with
          errors := s.errors + 1,
          table := s.table ++ [bufferRow ts e b s.stats],
          calls := s.calls ++ [RecCall.scoped (bufferRow ts e b s.stats)] } ∧
    (bufferRow ts e b s.stats).name = "unknown_event" := by
  have hlen : eventTypeNames.length = 14 := rfl
  have hcase : (typeVal e = 0 ∧ e.type = none) ∨
      (∃ t, typeVal e = t ∧ e.type = some t ∧ 14 ≤ t) := by
    rcases ht with hnone | ⟨t, hsome, hge⟩
    · exact Or.inl ⟨by simp [typeVal, hnone], hnone⟩
    · exact Or.inr ⟨t, by simp [typeVal, hsome], hsome, hlen ▸ hge⟩
  have hne : typeVal e ≠ DEQUEUE ∧ typeVal e ≠ QUEUE ∧
      typeVal e ≠ ACQUIRE_FENCE ∧ typeVal e ≠ LATCH ∧
      typeVal e ≠ PRESENT_FENCE := by
    rcases hcase with ⟨h0, _⟩ | ⟨t, htv, _, hge⟩
    · rw [h0]
      exact ⟨by decide, by decide, by decide, by decide, by decide⟩
    · rw [htv]
      refine ⟨?_, ?_, ?_, ?_, ?_⟩ <;>
        · simp only [DEQUEUE, QUEUE, ACQUIRE_FENCE, LATCH, PRESENT_FENCE]
          omega
  obtain ⟨n1, n2, n4, n5, n8⟩ := hne
  have herrors : typeErrors e = 1 := by
    rcases hcase with ⟨_, hnone⟩ | ⟨t, _, hsome, hge⟩
    · simp [typeErrors, hnone]
    · simp [typeErrors, hsome, hlen]
      omega
  have hstats : statsUpdate ts e b s.stats = s.stats := by
    rcases hcase with ⟨_, hnone⟩ | ⟨t, _, hsome, hge⟩
    · simp [statsUpdate, hnone]
    · simp [statsUpdate, hsome, hlen]
      intro hcon
      omega
  have hname : bufferEventName e = "unknown_event" := by
    rcases hcase with ⟨_, hnone⟩ | ⟨t, _, hsome, hge⟩
    · simp [bufferEventName, hnone]
    · simp [bufferEventName, hsome, hlen]
      intro hcon
      omega
  have hbuf : createBufferEvent ts e s =
      ({ s with
          errors := s.errors + 1,
          table := s.table ++ [bufferRow ts e b s.stats],
          calls := s.calls ++ [RecCall.scoped (bufferRow ts e b s.stats)] },
       true) := by
    simp [createBufferEvent, hb, herrors, hstats, n1, n2]
  refine ⟨by rw [hbuf], ?_, ?_⟩
  · have hparse : parseGraphicsFrameEvent ts e s =
        createPhaseEvent ts e (createBufferEvent ts e s).1 := by
      simp [parseGraphicsFrameEvent, hbuf]
    rw [hparse, phase_other ts e _ n1 n2 n4 n5 n8, hbuf]
  · simp [bufferRow, hname, n8]

/-- C6 witness: the concrete out-of-range event (ordinal 99) for buffer
4 against the fresh state. -/
theorem C6_witness :
    (createBufferEvent 7 (badTypeEv 4) initState).2 = true ∧
    parseGraphicsFrameEvent 7 (badTypeEv 4) initState =
      { initState with
          errors := initState.errors + 1,
          table := initState.table ++
            [bufferRow 7 (badTypeEv 4) 4 initState.stats],
          calls := initState.calls ++
            [RecCall.scoped (bufferRow 7 (badTypeEv 4) 4 initState.stats)] } ∧
    (bufferRow 7 (badTypeEv 4) 4 initState.stats).name = "unknown_event" :=
  C6 7 (badTypeEv 4) initState 4 rfl
    (Or.inr ⟨99, rfl, by decide⟩)

/-! ## Claim C7 -/

/-- Test whether a logged recorder call is a begin-interval call. -/
def isBeginCall : RecCall → Bool
  | RecCall.begin _ => true
  | _ => false

/-- C7: for every Queue event for a bufferId where the recorded
lastAcquiredTs is strictly between the recorded lastDequeuedTs and the
Queue event's timestamp, no GPU interval is opened (the out-of-order
AcquireFence guard): the GPU handle table is unchanged and not a single
begin-interval call is issued; while the App-interval close and patch
for that bufferId still occurs when the App handle is open (one
end-interval call on the open App track, the closed slice's
name/frameNumber patched, and the App handle dropped). -/
theorem C7 (ts : Int) (e : FrameEvent) (s : ParserState) (b : Nat)
    (hb : e.bufferId = some b) (ht : typeVal e = QUEUE)
    (hg1 : s.lastDequeued b < s.lastAcquired b)
    (hg2 : s.lastAcquired b < ts) :
    (createPhaseEvent ts e s).queueMap = s.queueMap ∧
    (createPhaseEvent ts e s).calls.countP isBeginCall =
      s.calls.countP isBeginCall ∧
    (afind b s.dequeueMap = none → createPhaseEvent ts e s = s) ∧
    (∀ dtrack, afind b s.dequeueMap = some dtrack →
      (createPhaseEvent ts e s).calls =
        s.calls ++ [RecCall.endCall ts dtrack []
          (endFrameEvent ts dtrack [] s.table).2]) ∧
    (∀ dtrack i, afind b s.dequeueMap = some dtrack →
      (endFrameEvent ts dtrack [] s.table).2 = some i →
      createPhaseEvent ts e s =
        { s with
            table := patchNameFrame i (toString (e.frameNumber.getD 0))
              (e.frameNumber.getD 0) (endFrameEvent ts dtrack [] s.table).1,
            calls := s.calls ++ [RecCall.endCall ts dtrack [] (some i)],
            dequeueMap := aerase b s.dequeueMap }) := by
  have hguard : s.lastAcquired b > s.lastDequeued b ∧
      s.lastAcquired b < ts := ⟨hg1, hg2⟩
  rcases hf : afind b s.dequeueMap with _ | dtrack
  · have hs := phase_queue_noApp ts e s b hb ht hf
    rw [if_pos hguard] at hs
    refine ⟨by rw [hs], by rw [hs], fun _ => hs, ?_, ?_⟩
    · intro dtrack hcon
      exact absurd hcon (by simp)
    · intro dtrack i hcon _
      exact absurd hcon (by simp)
  · rcases hE : (endFrameEvent ts dtrack [] s.table).2 with _ | i
    · have hs := phase_queue_close_miss ts e s b dtrack hb ht hf hE
      rw [if_pos hguard] at hs
      refine ⟨by rw [hs], by rw [hs]; simp [List.countP_append, isBeginCall],
        ?_, ?_, ?_⟩
      · intro hcon
        exact absurd hcon (by simp)
      · intro dtrack2 htr2
        have h : dtrack = dtrack2 := Option.some_inj.mp htr2
        subst h
        rw [hs, hE]
      · intro dtrack2 i htr2 hE2
        have h : dtrack = dtrack2 := Option.some_inj.mp htr2
        subst h
        rw [hE] at hE2
        exact absurd hE2 (by simp)
    · have hs := phase_queue_close ts e s b dtrack i hb ht hf hE
      rw [if_pos hguard] at hs
      refine ⟨by rw [hs], by rw [hs]; simp [List.countP_append, isBeginCall],
        ?_, ?_, ?_⟩
      · intro hcon
        exact absurd hcon (by simp)
      · intro dtrack2 htr2
        have h : dtrack = dtrack2 := Option.some_inj.mp htr2
        subst h
        rw [hs, hE]
      · intro dtrack2 i2 htr2 hE2
        have h : dtrack = dtrack2 := Option.some_inj.mp htr2
        subst h
        rw [hE] at hE2
        have h2 : i = i2 := Option.some_inj.mp hE2
        subst h2
        rw [hs]

/-- C7 witness: after Dequeue(buffer=1, ts=5) then
AcquireFence(buffer=1, ts=7) (which records lastAcquired = 7 between
lastDequeued = 5 and the Queue timestamp 9), the Queue(buffer=1, ts=9)
event opens nothing and still closes the open App interval on track
"APP_1". -/
theorem C7_witness :
    (createPhaseEvent 9 (queueEv 1 none)
        (runTrace [(5, dequeueEv 1), (7, acquireEv 1)])).queueMap =
      (runTrace [(5, dequeueEv 1), (7, acquireEv 1)]).queueMap ∧
    (createPhaseEvent 9 (queueEv 1 none)
        (runTrace [(5, dequeueEv 1), (7, acquireEv 1)])).calls.countP
        isBeginCall =
      (runTrace [(5, dequeueEv 1), (7, acquireEv 1)]).calls.countP
        isBeginCall ∧
    (createPhaseEvent 9 (queueEv 1 none)
        (runTrace [(5, dequeueEv 1), (7, acquireEv 1)])).calls =
      (runTrace [(5, dequeueEv 1), (7, acquireEv 1)]).calls ++
        [RecCall.endCall 9 "APP_1" []
          (endFrameEvent 9 "APP_1" []
            (runTrace [(5, dequeueEv 1), (7, acquireEv 1)]).table).2] :=
  ⟨(C7 9 (queueEv 1 none) (runTrace [(5, dequeueEv 1), (7, acquireEv 1)]) 1
      rfl rfl (by decide) (by decide)).1,
   (C7 9 (queueEv 1 none) (runTrace [(5, dequeueEv 1), (7, acquireEv 1)]) 1
      rfl rfl (by decide) (by decide)).2.1,
   (C7 9 (queueEv 1 none) (runTrace [(5, dequeueEv 1), (7, acquireEv 1)]) 1
      rfl rfl (by decide) (by decide)).2.2.2.1 "APP_1" (by decide)⟩

/-! ## Claim C8 -/

theorem afind_ainsert_self {κ ν : Type} [DecidableEq κ] (k : κ) (v : ν)
    (m : List (κ × ν)) : afind k (ainsert k v m) = some v := by
  simp [afind, ainsert]

/-- C8: for every bufferId whose App interval is still open when a Latch
event for that bufferId arrives (no intervening Queue closed it: the App
handle is still present and names an open slice), the Latch event closes
that App interval at the Latch timestamp — its duration becomes
ts − start — with the diagnostic "Details" key/value argument attached,
and the App handle is dropped rather than left open. -/
theorem C8 (ts : Int) (e : FrameEvent) (s : ParserState) (b : Nat)
    (tr : String) (i : Nat) (r : SliceRow)
    (hb : e.bufferId = some b) (ht : typeVal e = LATCH)
    (hf : afind b s.dequeueMap = some tr)
    (hi : findLastOpen tr s.table = some i)
    (hr : s.table.get? i = some r) :
    ((createPhaseEvent ts e s).table.get? i).map
        (fun r2 => (r2.ts, r2.dur, r2.args)) =
      some (r.ts, some (ts - r.ts), [("Details", queueLostMessage)]) ∧
    afind b (createPhaseEvent ts e s).dequeueMap = none := by
  have hlen : i < s.table.length := get?_some_lt hr
  have hEfull : endFrameEvent ts tr [("Details", queueLostMessage)] s.table
      = (s.table.set i
          { r with dur := some (ts - r.ts),
                   args := [("Details", queueLostMessage)] }, some i) := by
    simp only [endFrameEvent, hi, hr]
  have hE2 : (endFrameEvent ts tr
      [("Details", queueLostMessage)] s.table).2 = some i := by
    rw [hEfull]
  rw [phase_latch_close ts e s b tr i hb ht hf hE2]
  constructor
  · rw [startSlice_table]
    have hE1 : (endFrameEvent ts tr
        [("Details", queueLostMessage)] s.table).1 = s.table.set i
          { r with dur := some (ts - r.ts),
                   args := [("Details", queueLostMessage)] } := by
      rw [hEfull]
    rw [hE1]
    have hget : (s.table.set i
        { r with dur := some (ts - r.ts),
                 args := [("Details", queueLostMessage)] }).get? i =
        some { r with dur := some (ts - r.ts),
                      args := [("Details", queueLostMessage)] } :=
      get?_set_self _ _ _ hlen
    rw [patchNameFrame, hget]
    have hlt : i < ((s.table.set i
        { r with dur := some (ts - r.ts),
                 args := [("Details", queueLostMessage)] }).set i
          { r with dur := some (ts - r.ts),
                   args := [("Details", queueLostMessage)],
                   name := toString (e.frameNumber.getD 0),
                   frameNumber := e.frameNumber.getD 0 }).length := by
      rw [List.length_set, List.length_set]
      exact hlen
    rw [List.get?_append hlt, get?_set_self _ _ _
      (by rw [List.length_set]; exact hlen)]
    rfl
  · rw [startSlice_dequeueMap]
    exact afind_aerase_self b _

/-- C8 witness: the claim's own example.  Dequeue(buffer=3, ts=5) with
no Queue, then Latch(buffer=3, ts=9): the App interval opened at ts=5
on track "APP_3" (row 1, still open) is closed at ts=9 (duration 4)
with the diagnostic argument attached, and the App handle is dropped. -/
theorem C8_witness :
    ((createPhaseEvent 9 (latchEv 3)
          (runTrace [(5, dequeueEv 3)])).table.get? 1).map
        (fun r2 => (r2.ts, r2.dur, r2.args)) =
      some ((5 : Int), some (9 - (5 : Int)),
        [("Details", queueLostMessage)]) ∧
    afind 3 (createPhaseEvent 9 (latchEv 3)
        (runTrace [(5, dequeueEv 3)])).dequeueMap = none :=
  C8 9 (latchEv 3) (runTrace [(5, dequeueEv 3)]) 3 "APP_3" 1
    { ts := 5, track := "APP_3", name := "5", dur := none,
      frameNumber := 0, layerName := "no_layer_name", args := [],
      queueToAcquire := none, acquireToLatch := none,
      latchToPresent := none }
    rfl rfl (by decide) (by decide) (by decide)

/-! ## Claim C9 -/

/-- C9: for the sequence Dequeue(buffer=1, ts=100) then
Queue(buffer=1, ts=150, frame=7), the App interval opens at ts=100 with
display name "100" (the literal decimal timestamp — no frame number is
known at Dequeue), and on the Queue event it closes at ts=150 (duration
50) with its name patched to "7" and its frameNumber patched to 7; in
general an opened phase interval's display name is the decimal frame
number when non-zero, else the decimal timestamp. -/
theorem C9 :
    (((runTrace [(100, dequeueEv 1)]).table.get? 1).map
        (fun r => (r.ts, r.name, r.dur, r.frameNumber)) =
      some (100, "100", none, 0)) ∧
    (((runTrace [(100, dequeueEv 1),
          (150, queueEv 1 (some 7))]).table.get? 1).map
        (fun r => (r.ts, r.name, r.dur, r.frameNumber)) =
      some (100, "7", some 50, 7)) ∧
    (∀ (ts : Int) (tr : String) (fn : Nat) (ln : String)
        (s : ParserState),
      (startSlice ts tr fn ln s).table =
        s.table ++ [phaseSlice ts tr fn ln]) ∧
    (∀ (ts : Int) (tr : String) (fn : Nat) (ln : String),
      (phaseSlice ts tr fn ln).name =
        if fn ≠ 0 then toString fn else toString ts) :=
  ⟨by decide, by decide, fun _ _ _ _ _ => rfl, fun _ _ _ _ => rfl⟩

/-! ## Claim C10 -/

/-- C10: for every PresentFence event whose layerName field is absent,
the Display track name is built from the raw (empty) decoded layer-name
string, yielding "Display_" with no suffix — the "no_layer_name"
sentinel is not part of the track name (appending the truncated
sentinel would give a different name) — while the open-Display table is
keyed by the sentinel string, so every PresentFence event lacking a
layerName uses the same "Display_" track and the same
"no_layer_name" open-Display slot. -/
theorem C10 (ts : Int) (e : FrameEvent) (s : ParserState) (b : Nat)
    (hb : e.bufferId = some b) (ht : typeVal e = PRESENT_FENCE)
    (hl : e.layerName = none) :
    resolvedLayerName e = "no_layer_name" ∧
    "Display_" ++ (e.layerName.getD "").take 10 = "Display_" ∧
    afind "no_layer_name" (createPhaseEvent ts e s).displayMap =
      some "Display_" ∧
    ("Display_" : String) ≠ "Display_" ++ ("no_layer_name".take 10) := by
  have h1 : resolvedLayerName e = "no_layer_name" := by
    simp [resolvedLayerName, hl]
  have h2 : "Display_" ++ (e.layerName.getD "").take 10 = "Display_" := by
    rw [hl]
    rfl
  refine ⟨h1, h2, ?_, by decide⟩
  rcases hlm : afind b s.latchMap with _ | ltrack <;>
    rcases hdm : afind (resolvedLayerName e) s.displayMap with _ | dtrack
  · rw [phase_present_miss_miss ts e s b hb ht hlm hdm,
      startSlice_displayMap, h1, h2]
    exact afind_ainsert_self _ _ _
  · rw [phase_present_miss_close ts e s b dtrack hb ht hlm hdm,
      startSlice_displayMap, h1, h2]
    exact afind_ainsert_self _ _ _
  · rw [phase_present_close_miss ts e s b ltrack hb ht hlm hdm,
      startSlice_displayMap, h1, h2]
    exact afind_ainsert_self _ _ _
  · rw [phase_present_close_close ts e s b ltrack dtrack hb ht hlm hdm,
      startSlice_displayMap, h1, h2]
    exact afind_ainsert_self _ _ _

/-- C10 witness: a layerName-less PresentFence for buffer 7 against the
fresh state. -/
theorem C10_witness :
    resolvedLayerName (presentEv 7) = "no_layer_name" ∧
    "Display_" ++ ((presentEv 7).layerName.getD "").take 10 =
      "Display_" ∧
    afind "no_layer_name" (createPhaseEvent 200 (presentEv 7)
        initState).displayMap = some "Display_" ∧
    ("Display_" : String) ≠ "Display_" ++ ("no_layer_name".take 10) :=
  C10 200 (presentEv 7) initState 7 rfl rfl rfl

end GraphicsFrame
